import Mathlib

/-!
Verification development for `submit_application.py`: a single linear script
that validates environment variables, builds a fixed-shape payload, serializes
it as canonical JSON, signs the bytes with HMAC-SHA256, POSTs them, and
interprets the JSON response.

Bytes are modelled as `Nat` values (< 256 on real inputs), strings as Lean
`String`, and the environment as an association list.  The nondeterministic
timestamp (`datetime.now`) and the network response are inputs to the model.
-/

namespace SubmitApp

/-- UTF-8 encoding of a string, as a list of byte values (`.encode("utf-8")`). -/
def utf8Bytes (s : String) : List Nat :=
  (s.data.flatMap String.utf8EncodeChar).map (fun b => b.toNat)

/-- The fixed-shape application record built by the script (lines 45-52). -/
structure Payload where
  timestamp : String
  name : String
  email : String
  resume_link : String
  repository_link : String
  action_run_link : String
deriving DecidableEq, Repr

/-- `payload = {...}` from the script: constants plus the generated timestamp
and the `GITHUB_RUN_URL` value. -/
def buildPayload (timestamp runUrl : String) : Payload :=
  { timestamp := timestamp
    name := "James Thomas"
    email := "jamesjacobthomas7@gmail.com"
    resume_link := "https://www.linkedin.com/in/james-thomas007/"
    repository_link := "https://github.com/jtx007/b12-application"
    action_run_link := runUrl }

/-- Lowercase hex digit for `n < 16` (`0`-`9`, `a`-`f`). -/
def hexChar (n : Nat) : Char :=
  if n < 10 then Char.ofNat (48 + n) else Char.ofNat (87 + n)

/-- Four-lowercase-hex-digit rendering of a code point below `0x10000`. -/
def hex4 (n : Nat) : String :=
  ⟨[hexChar ((n / 4096) % 16), hexChar ((n / 256) % 16),
    hexChar ((n / 16) % 16), hexChar (n % 16)]⟩

/-- JSON string-character escaping as performed by `json.dumps` with
`ensure_ascii=False`: only `"`" , `\` and control characters below `0x20`
are escaped; everything else passes through literally. -/
def jsonEscapeChar (c : Char) : String :=
  if c = '"' then "\\\""
  else if c = '\\' then "\\\\"
  else if c = Char.ofNat 8 then "\\b"
  else if c = Char.ofNat 9 then "\\t"
  else if c = Char.ofNat 10 then "\\n"
  else if c = Char.ofNat 12 then "\\f"
  else if c = Char.ofNat 13 then "\\r"
  else if c.toNat < 32 then "\\u" ++ hex4 c.toNat
  else String.singleton c

/-- JSON rendering of a string literal under `ensure_ascii=False`. -/
def jsonString (s : String) : String :=
  "\"" ++ String.join (s.toList.map jsonEscapeChar) ++ "\""

/-- `canonical_json` (lines 57-62): `json.dumps(payload, separators=(",",":"),
sort_keys=True, ensure_ascii=False)`.  The six fixed keys in sorted order are
`action_run_link, email, name, repository_link, resume_link, timestamp`. -/
def canonical_json (p : Payload) : String :=
  "\x7b" ++ jsonString "action_run_link" ++ ":" ++ jsonString p.action_run_link
  ++ "," ++ jsonString "email" ++ ":" ++ jsonString p.email
  ++ "," ++ jsonString "name" ++ ":" ++ jsonString p.name
  ++ "," ++ jsonString "repository_link" ++ ":" ++ jsonString p.repository_link
  ++ "," ++ jsonString "resume_link" ++ ":" ++ jsonString p.resume_link
  ++ "," ++ jsonString "timestamp" ++ ":" ++ jsonString p.timestamp
  ++ "\x7d"

/-! ### SHA-256 (semantics of `hashlib.sha256`, FIPS 180-4)

32-bit words are `Nat` values reduced modulo `2^32` wherever overflow can
occur; messages and digests are lists of byte values. -/

/-- `2^32`, the word modulus. -/
def w32 : Nat := 4294967296

/-- Right rotation of a 32-bit word by `n` bits. -/
def rotr (n w : Nat) : Nat :=
  ((w >>> n) ||| (w <<< (32 - n))) % w32

/-- SHA-256 `Ch(x,y,z) = (x ∧ y) ⊕ (¬x ∧ z)` (complement via XOR with the
32-bit mask). -/
def ch (x y z : Nat) : Nat :=
  (x &&& y) ^^^ ((x ^^^ 4294967295) &&& z)

/-- SHA-256 `Maj(x,y,z)`. -/
def maj (x y z : Nat) : Nat :=
  (x &&& y) ^^^ (x &&& z) ^^^ (y &&& z)

/-- SHA-256 `Σ₀`. -/
def bigSigma0 (x : Nat) : Nat := rotr 2 x ^^^ rotr 13 x ^^^ rotr 22 x

/-- SHA-256 `Σ₁`. -/
def bigSigma1 (x : Nat) : Nat := rotr 6 x ^^^ rotr 11 x ^^^ rotr 25 x

/-- SHA-256 `σ₀`. -/
def smallSigma0 (x : Nat) : Nat := rotr 7 x ^^^ rotr 18 x ^^^ (x >>> 3)

/-- SHA-256 `σ₁`. -/
def smallSigma1 (x : Nat) : Nat := rotr 17 x ^^^ rotr 19 x ^^^ (x >>> 10)

/-- The 64 SHA-256 round constants of FIPS 180-4 §4.2.2 (decimal). -/
def K256 : List Nat :=
  [1116352408, 1899447441, 3049323471, 3921009573, 961987163,
   1508970993, 2453635748, 2870763221, 3624381080, 310598401,
   607225278, 1426881987, 1925078388, 2162078206, 2614888103,
   3248222580, 3835390401, 4022224774, 264347078, 604807628,
   770255983, 1249150122, 1555081692, 1996064986, 2554220882,
   2821834349, 2952996808, 3210313671, 3336571891, 3584528711,
   113926993, 338241895, 666307205, 773529912, 1294757372,
   1396182291, 1695183700, 1986661051, 2177026350, 2456956037,
   2730485921, 2820302411, 3259730800, 3345764771, 3516065817,
   3600352804, 4094571909, 275423344, 430227734, 506948616,
   659060556, 883997877, 958139571, 1322822218, 1537002063,
   1747873779, 1955562222, 2024104815, 2227730452, 2361852424,
   2428436474, 2756734187, 3204031479, 3329325298]

/-- The eight SHA-256 hash-state words. -/
structure Sha256State where
  a : Nat
  b : Nat
  c : Nat
  d : Nat
  e : Nat
  f : Nat
  g : Nat
  h : Nat
deriving DecidableEq, Repr

/-- SHA-256 initial hash value `H⁽⁰⁾` of FIPS 180-4 §5.3.3 (decimal). -/
def sha256Init : Sha256State :=
  ⟨1779033703, 3144134277, 1013904242, 2773480762,
   1359893119, 2600822924, 528734635, 1541459225⟩

/-- Big-endian 8-byte rendering of the bit length, used in padding. -/
def lenBytes (n : Nat) : List Nat :=
  [(n >>> 56) % 256, (n >>> 48) % 256, (n >>> 40) % 256, (n >>> 32) % 256,
   (n >>> 24) % 256, (n >>> 16) % 256, (n >>> 8) % 256, n % 256]

/-- SHA-256 padding: append `0x80`, zero bytes to reach 56 mod 64, then the
64-bit big-endian bit length. -/
def padMessage (msg : List Nat) : List Nat :=
  msg ++ [0x80] ++ List.replicate ((119 - (msg.length % 64)) % 64) 0
      ++ lenBytes (8 * msg.length)

/-- Split a byte list into successive 64-byte chunks. -/
def chunks64 (l : List Nat) : List (List Nat) :=
  if h : l = [] then []
  else (l.take 64) :: chunks64 (l.drop 64)
termination_by l.length
decreasing_by
  have hl : 0 < l.length := List.length_pos.mpr h
  simp [List.length_drop]
  omega

/-- Big-endian packing of bytes into 32-bit words. -/
def bytesToWords : List Nat → List Nat
  | b0 :: b1 :: b2 :: b3 :: rest =>
      ((b0 <<< 24) ||| (b1 <<< 16) ||| (b2 <<< 8) ||| b3) :: bytesToWords rest
  | _ => []

/-- Message-schedule extension step, operating on the schedule in reverse
(most recent word first); runs `n` more extension rounds. -/
def extendLoop : Nat → List Nat → List Nat
  | 0, acc => acc
  | n + 1, acc =>
      extendLoop n
        ((smallSigma1 (acc.getD 1 0) + acc.getD 6 0
          + smallSigma0 (acc.getD 14 0) + acc.getD 15 0) % w32 :: acc)

/-- The 64-word message schedule `W` of a 16-word chunk. -/
def messageSchedule (ws : List Nat) : List Nat :=
  (extendLoop 48 ws.reverse).reverse

/-- One SHA-256 compression round with schedule word `w` and constant `k`. -/
def round256 (st : Sha256State) (w k : Nat) : Sha256State :=
  let t1 := (st.h + bigSigma1 st.e + ch st.e st.f st.g + k + w) % w32
  let t2 := (bigSigma0 st.a + maj st.a st.b st.c) % w32
  ⟨(t1 + t2) % w32, st.a, st.b, st.c, (st.d + t1) % w32, st.e, st.f, st.g⟩

/-- Process one 64-byte chunk: 64 rounds, then add to the incoming state. -/
def compressChunk (st : Sha256State) (chunk : List Nat) : Sha256State :=
  let ws := messageSchedule (bytesToWords chunk)
  let r := (ws.zip K256).foldl (fun s p => round256 s p.1 p.2) st
  ⟨(st.a + r.a) % w32, (st.b + r.b) % w32, (st.c + r.c) % w32,
   (st.d + r.d) % w32, (st.e + r.e) % w32, (st.f + r.f) % w32,
   (st.g + r.g) % w32, (st.h + r.h) % w32⟩

/-- Big-endian bytes of one 32-bit word. -/
def wordBytes (w : Nat) : List Nat :=
  [(w >>> 24) % 256, (w >>> 16) % 256, (w >>> 8) % 256, w % 256]

/-- The 32-byte digest of a final hash state. -/
def digestBytes (st : Sha256State) : List Nat :=
  wordBytes st.a ++ wordBytes st.b ++ wordBytes st.c ++ wordBytes st.d
  ++ wordBytes st.e ++ wordBytes st.f ++ wordBytes st.g ++ wordBytes st.h

/-- SHA-256 of a byte list. -/
def sha256 (msg : List Nat) : List Nat :=
  digestBytes ((chunks64 (padMessage msg)).foldl compressChunk sha256Init)

/-- Lowercase-hex rendering of a byte list (`.hexdigest()`). -/
def hexDigest (bytes : List Nat) : String :=
  ⟨bytes.flatMap (fun b => [hexChar (b / 16), hexChar (b % 16)])⟩

/-! ### HMAC-SHA256 (semantics of `hmac.new(key, msg, hashlib.sha256)`) -/

/-- HMAC-SHA256 digest bytes: RFC 2104 with block size 64. -/
def hmacSha256 (key msg : List Nat) : List Nat :=
  let k0 := if key.length > 64 then sha256 key else key
  let kb := k0 ++ List.replicate (64 - k0.length) 0
  sha256 ((kb.map (fun b => b ^^^ 0x5c))
    ++ sha256 ((kb.map (fun b => b ^^^ 0x36)) ++ msg))

/-- `hmac.new(key, msg, hashlib.sha256).hexdigest()`. -/
def hmacSha256Hex (key msg : List Nat) : String :=
  hexDigest (hmacSha256 key msg)

/-- The byte sequence handed to the signer (line 69):
`canonical_json.encode("utf-8")` as the HMAC message. -/
def signedBytes (p : Payload) : List Nat :=
  utf8Bytes (canonical_json p)

/-- `digest` (lines 67-71): HMAC-SHA256 over the canonical bytes keyed by the
UTF-8 encoded secret, rendered as lowercase hex. -/
def digest (secret : String) (p : Payload) : String :=
  hmacSha256Hex (utf8Bytes secret) (signedBytes p)

/-- `signature_header` (line 73): `f"sha256={digest}"`. -/
def signature_header (secret : String) (p : Payload) : String :=
  "sha256=" ++ digest secret p

/-! ### JSON values and `json.loads`

Parsed responses are modelled by `Json`.  Numeric literals are modelled as
integers (no claim involves fractional numbers; a fractional or exponent
literal is outside the model's grammar).  Python dictionaries from
`json.loads` keep the first-occurrence key order with the last value for a
duplicated key; the parser realises this with `dictInsert`. -/

inductive Json where
  | null
  | bool (b : Bool)
  | num (n : Int)
  | str (s : String)
  | arr (items : List Json)
  | obj (members : List (String × Json))
deriving Repr

/-- Python `dict.get` / `dict[...]` lookup on an association list: the last
binding of the key wins, as with repeated dict assignment. -/
def jget (kvs : List (String × Json)) (k : String) : Option Json :=
  kvs.foldl (fun acc p => if p.1 = k then some p.2 else acc) none

/-- Python dict assignment `d[k] = v`: overwrite in place when the key
exists, otherwise append. -/
def dictInsert (kvs : List (String × Json)) (k : String) (v : Json) :
    List (String × Json) :=
  if (kvs.map Prod.fst).contains k then
    kvs.map (fun p => if p.1 = k then (k, v) else p)
  else kvs ++ [(k, v)]

/-- JSON whitespace accepted by `json.loads` between tokens. -/
def skipWs (cs : List Char) : List Char :=
  cs.dropWhile (fun c => c = ' ' ∨ c = Char.ofNat 9 ∨ c = Char.ofNat 10 ∨ c = Char.ofNat 13)

/-- Value of a hex digit, if any. -/
def hexVal (c : Char) : Option Nat :=
  if '0' ≤ c ∧ c ≤ '9' then some (c.toNat - 48)
  else if 'a' ≤ c ∧ c ≤ 'f' then some (c.toNat - 87)
  else if 'A' ≤ c ∧ c ≤ 'F' then some (c.toNat - 55)
  else none

/-- Code point of a `\uXXXX` escape. -/
def hex4Val (a b c d : Char) : Option Nat := do
  let x ← hexVal a; let y ← hexVal b; let z ← hexVal c; let w ← hexVal d
  pure (4096 * x + 256 * y + 16 * z + w)

/-- Body of a JSON string literal (after the opening quote), in strict mode:
unescaped control characters are rejected, escapes follow RFC 8259, and a
`\uXXXX` surrogate pair combines into one code point.  (A lone surrogate,
which Python can hold but Lean's `Char` cannot, maps to NUL.) -/
def parseStrAux (fuel : Nat) (cs : List Char) : Option (List Char × List Char) :=
  match fuel, cs with
  | 0, _ => none
  | _, [] => none
  | fuel + 1, c :: rest =>
    if c = '"' then some ([], rest)
    else if c = '\\' then
      match rest with
      | '"' :: r => (parseStrAux fuel r).map (fun p => ('"' :: p.1, p.2))
      | '\\' :: r => (parseStrAux fuel r).map (fun p => ('\\' :: p.1, p.2))
      | '/' :: r => (parseStrAux fuel r).map (fun p => ('/' :: p.1, p.2))
      | 'b' :: r => (parseStrAux fuel r).map (fun p => (Char.ofNat 8 :: p.1, p.2))
      | 'f' :: r => (parseStrAux fuel r).map (fun p => (Char.ofNat 12 :: p.1, p.2))
      | 'n' :: r => (parseStrAux fuel r).map (fun p => (Char.ofNat 10 :: p.1, p.2))
      | 'r' :: r => (parseStrAux fuel r).map (fun p => (Char.ofNat 13 :: p.1, p.2))
      | 't' :: r => (parseStrAux fuel r).map (fun p => (Char.ofNat 9 :: p.1, p.2))
      | 'u' :: h1 :: h2 :: h3 :: h4 :: r =>
        match hex4Val h1 h2 h3 h4 with
        | none => none
        | some n =>
          if 0xD800 ≤ n ∧ n ≤ 0xDBFF then
            match r with
            | '\\' :: 'u' :: g1 :: g2 :: g3 :: g4 :: r2 =>
              match hex4Val g1 g2 g3 g4 with
              | some m =>
                if 0xDC00 ≤ m ∧ m ≤ 0xDFFF then
                  (parseStrAux fuel r2).map (fun p =>
                    (Char.ofNat (0x10000 + 1024 * (n - 0xD800) + (m - 0xDC00)) :: p.1, p.2))
                else (parseStrAux fuel r).map (fun p => (Char.ofNat 0 :: p.1, p.2))
              | none => (parseStrAux fuel r).map (fun p => (Char.ofNat 0 :: p.1, p.2))
            | _ => (parseStrAux fuel r).map (fun p => (Char.ofNat 0 :: p.1, p.2))
          else (parseStrAux fuel r).map (fun p => (Char.ofNat n :: p.1, p.2))
      | _ => none
    else if c.toNat < 32 then none
    else (parseStrAux fuel rest).map (fun p => (c :: p.1, p.2))

/-- Leading digit run of a JSON number following the `0 | [1-9][0-9]*`
grammar; rejects a fractional or exponent continuation (outside the model). -/
def parseNum (cs : List Char) : Option (Nat × List Char) :=
  match cs with
  | c :: rest =>
    if c = '0' then
      match rest with
      | d :: _ => if d.isDigit ∨ d = '.' ∨ d = 'e' ∨ d = 'E' then none else some (0, rest)
      | [] => some (0, [])
    else if c.isDigit then
      let ds := cs.takeWhile Char.isDigit
      let r := cs.dropWhile Char.isDigit
      match r with
      | d :: _ =>
        if d = '.' ∨ d = 'e' ∨ d = 'E' then none
        else some (ds.foldl (fun n d => 10 * n + (d.toNat - 48)) 0, r)
      | [] => some (ds.foldl (fun n d => 10 * n + (d.toNat - 48)) 0, [])
    else none
  | [] => none

mutual

/-- One JSON value at the head of the input (whitespace skipped first). -/
def parseValue : Nat → List Char → Option (Json × List Char)
  | 0, _ => none
  | fuel + 1, cs =>
    match skipWs cs with
    | [] => none
    | c :: rest =>
      if c = '{' then
        match skipWs rest with
        | '}' :: r => some (.obj [], r)
        | r => parseMembers fuel r []
      else if c = '[' then
        match skipWs rest with
        | ']' :: r => some (.arr [], r)
        | r => parseItems fuel r []
      else if c = '"' then
        (parseStrAux (rest.length + 1) rest).map (fun p => (.str ⟨p.1⟩, p.2))
      else if c = '-' then
        (parseNum rest).map (fun p => (.num (-(p.1 : Int)), p.2))
      else
        match c :: rest with
        | 't' :: 'r' :: 'u' :: 'e' :: r => some (.bool true, r)
        | 'f' :: 'a' :: 'l' :: 's' :: 'e' :: r => some (.bool false, r)
        | 'n' :: 'u' :: 'l' :: 'l' :: r => some (.null, r)
        | l => (parseNum l).map (fun p => (.num (p.1 : Int), p.2))

/-- Members of an object after `{` (first key expected at the head). -/
def parseMembers : Nat → List Char → List (String × Json) →
    Option (Json × List Char)
  | 0, _, _ => none
  | fuel + 1, cs, acc =>
    match skipWs cs with
    | '"' :: rest =>
      match parseStrAux (rest.length + 1) rest with
      | none => none
      | some (kcs, r1) =>
        match skipWs r1 with
        | ':' :: r2 =>
          match parseValue fuel r2 with
          | none => none
          | some (v, r3) =>
            let acc2 := dictInsert acc ⟨kcs⟩ v
            match skipWs r3 with
            | ',' :: r4 => parseMembers fuel r4 acc2
            | '}' :: r4 => some (.obj acc2, r4)
            | _ => none
        | _ => none
    | _ => none

/-- Items of an array after `[` (first item expected at the head). -/
def parseItems : Nat → List Char → List Json → Option (Json × List Char)
  | 0, _, _ => none
  | fuel + 1, cs, acc =>
    match parseValue fuel cs with
    | none => none
    | some (v, r1) =>
      match skipWs r1 with
      | ',' :: r2 => parseItems fuel r2 (acc ++ [v])
      | ']' :: r2 => some (.arr (acc ++ [v]), r2)
      | _ => none

end

/-- `json.loads`: parse one value and require only whitespace after it. -/
def jsonLoads (s : String) : Option Json :=
  match parseValue (s.length + 1) s.toList with
  | some (v, rest) => if skipWs rest = [] then some v else none
  | none => none

/-! ### Python `repr`/`str` of parsed values, and truthiness -/

/-- Two-lowercase-hex-digit rendering of a byte. -/
def pyHex2 (n : Nat) : String := ⟨[hexChar ((n / 16) % 16), hexChar (n % 16)]⟩

/-- One character of a Python string `repr` with chosen quote `q`: escape the
backslash, the quote, and control characters (`\t`, `\n`, `\r`, else `\xHH`).
Printable characters, ASCII or not, pass through. -/
def pyReprEscape (q c : Char) : String :=
  if c = '\\' then "\\\\"
  else if c = q then "\\" ++ String.singleton q
  else if c = Char.ofNat 9 then "\\t"
  else if c = Char.ofNat 10 then "\\n"
  else if c = Char.ofNat 13 then "\\r"
  else if c.toNat < 32 ∨ c.toNat = 127 then "\\x" ++ pyHex2 c.toNat
  else String.singleton c

/-- Python `repr` of a string: single-quoted, switching to double quotes when
the string holds a single quote but no double quote. -/
def pyReprStr (s : String) : String :=
  let q := if s.toList.contains (Char.ofNat 39) ∧ ¬ s.toList.contains '"' then '"'
           else Char.ofNat 39
  String.singleton q ++ String.join (s.toList.map (pyReprEscape q)) ++ String.singleton q

mutual

/-- Python `repr` of a parsed JSON value (`None`/`True`/`False`, decimal
integers, quoted strings, `[...]`, `{'k': v}`). -/
def pyRepr : Json → String
  | .null => "None"
  | .bool true => "True"
  | .bool false => "False"
  | .num n => toString n
  | .str s => pyReprStr s
  | .arr items => "[" ++ pyReprList items ++ "]"
  | .obj kvs => "\x7b" ++ pyReprMembers kvs ++ "\x7d"

/-- Comma-separated `repr`s of list items. -/
def pyReprList : List Json → String
  | [] => ""
  | [x] => pyRepr x
  | x :: xs => pyRepr x ++ ", " ++ pyReprList xs

/-- Comma-separated `'key': value` pairs of a dict `repr`. -/
def pyReprMembers : List (String × Json) → String
  | [] => ""
  | [(k, v)] => pyReprStr k ++ ": " ++ pyRepr v
  | (k, v) :: xs => pyReprStr k ++ ": " ++ pyRepr v ++ ", " ++ pyReprMembers xs

end

/-- Python `str` of a parsed value, as `print` renders it: a string prints
itself, anything else prints its `repr`. -/
def pyStr : Json → String
  | .str s => s
  | v => pyRepr v

/-- Python type name of a parsed JSON value. -/
def pyTypeName : Json → String
  | .null => "NoneType"
  | .bool _ => "bool"
  | .num _ => "int"
  | .str _ => "str"
  | .arr _ => "list"
  | .obj _ => "dict"

/-- Python truthiness of a parsed JSON value (`bool(x)`). -/
def pyTruthy : Json → Bool
  | .null => false
  | .bool b => b
  | .num n => n ≠ 0
  | .str s => s ≠ ""
  | .arr items => !items.isEmpty
  | .obj kvs => !kvs.isEmpty

/-! ### Transport outcomes and the observable run result -/

/-- The transport outcome of `urllib.request.urlopen` (lines 88-96): a body
read from a 2xx response, an `HTTPError` carrying status and body, or any
other exception. -/
inductive TransportResult where
  | ok (body : String)
  | httpError (code : Nat) (body : String)
  | failed (msg : String)
deriving DecidableEq, Repr

/-- Observable end of a run: normal termination with the lines printed to
stdout/stderr and the `sys.exit` code, or an uncaught exception (CPython
prints a traceback and exits with status 1). -/
inductive RunResult where
  | exited (stdout stderr : List String) (code : Nat)
  | crashed (exc : String)
deriving DecidableEq, Repr

/-- Process exit status of a run result. -/
def exitStatus : RunResult → Nat
  | .exited _ _ c => c
  | .crashed _ => 1

/-- `True` exactly on the success path: normal exit with status 0. -/
def isSuccessOutcome : RunResult → Bool
  | .exited _ _ c => c = 0
  | .crashed _ => false

/-- Lines written to the error stream (a crash writes its traceback). -/
def stderrLines : RunResult → List String
  | .exited _ e _ => e
  | .crashed m => [m]

/-- `parsed.get("success") is True`: true only for the boolean `True`
object, never for merely truthy values such as `1`. -/
def getSuccessIsTrue (kvs : List (String × Json)) : Bool :=
  match jget kvs "success" with
  | some (.bool true) => true
  | _ => false

/-- Lines 110-114 once `parsed` exists: `parsed.get("success") is True and
"receipt" in parsed` selects the success print; otherwise the parsed
structure goes to stderr with exit 1.  A non-dict `parsed` has no `.get`,
so the attribute lookup raises `AttributeError` (uncaught). -/
def interpretParsed : Json → RunResult
  | .obj kvs =>
    if getSuccessIsTrue kvs ∧ (jget kvs "receipt").isSome then
      .exited ["Submission receipt: " ++ pyStr ((jget kvs "receipt").getD .null)] [] 0
    else
      .exited [] ["Unexpected response: " ++ pyRepr (.obj kvs)] 1
  | v =>
    .crashed ("AttributeError: " ++ pyReprStr (pyTypeName v)
      ++ " object has no attribute " ++ pyReprStr "get")

/-- Lines 101-114: `json.loads` on the body, reporting the raw body on a
decode error, then the success/shape check. -/
def interpretBody (body : String) : RunResult :=
  match jsonLoads body with
  | none => .exited [] ["Invalid JSON response: " ++ body] 1
  | some parsed => interpretParsed parsed

/-- Lines 88-96 and onward: an `HTTPError` reports `HTTP error: <code>
<body>` and exits 1; any other transport exception reports `Request failed:
<msg>` and exits 1; a 2xx body flows to the response interpreter. -/
def handleTransport : TransportResult → RunResult
  | .ok body => interpretBody body
  | .httpError c b => .exited [] ["HTTP error: " ++ toString c ++ " " ++ b] 1
  | .failed m => .exited [] ["Request failed: " ++ m] 1

/-! ### The request and the whole program -/

/-- The fixed endpoint (line 15). -/
def B12_ENDPOINT : String := "https://b12.io/apply/submission"

/-- The outgoing POST request (lines 78-86). -/
structure HttpRequest where
  url : String
  data : List Nat
  contentType : String
  xSignature256 : String
  method : String
deriving DecidableEq, Repr

/-- `request` (lines 78-86): the canonical bytes as `data`, with the
content-type and signature headers. -/
def request (secret : String) (p : Payload) : HttpRequest :=
  { url := B12_ENDPOINT
    data := utf8Bytes (canonical_json p)
    contentType := "application/json"
    xSignature256 := signature_header secret p
    method := "POST" }

/-- The two required environment variables (lines 20-23). -/
def required_env_vars : List String := ["B12_SIGNING_SECRET", "GITHUB_RUN_URL"]

/-- `v in os.environ` lookup over the modelled environment. -/
def lookupEnv (env : List (String × String)) (v : String) : Option String :=
  env.lookup v

/-- `missing` (line 25): required names absent from the environment, in
declaration order. -/
def missingVars (env : List (String × String)) : List String :=
  required_env_vars.filter (fun v => (lookupEnv env v).isNone)

/-- The whole script as a function of the environment, the generated
timestamp, and the transport outcome.  Returns the request it would send
(`none` when validation exits before any payload is built) and the
observable run result. -/
def run (env : List (String × String)) (timestamp : String)
    (tr : TransportResult) : Option HttpRequest × RunResult :=
  match missingVars env with
  | [] =>
    let secret := (lookupEnv env "B12_SIGNING_SECRET").getD ""
    let runUrl := (lookupEnv env "GITHUB_RUN_URL").getD ""
    let req := request secret (buildPayload timestamp runUrl)
    (some req, handleTransport tr)
  | ms =>
    (none, .exited [] ["Missing required environment variables: "
      ++ String.intercalate ", " ms] 1)

/-! ### Helper lemmas -/

/-- Lowercase hex digit predicate (`0`-`9`, `a`-`f`). -/
def isHexDigitLower (c : Char) : Bool :=
  (48 ≤ c.toNat && c.toNat ≤ 57) || (97 ≤ c.toNat && c.toNat ≤ 102)

theorem digestBytes_length (st : Sha256State) : (digestBytes st).length = 32 := by
  simp [digestBytes, wordBytes]

theorem digestBytes_lt (st : Sha256State) : ∀ b ∈ digestBytes st, b < 256 := by
  intro b hb
  simp only [digestBytes, wordBytes, List.mem_append, List.mem_cons,
    List.not_mem_nil, or_false] at hb
  rcases hb with hb | hb | hb | hb | hb | hb | hb | hb <;> omega

theorem sha256_length (msg : List Nat) : (sha256 msg).length = 32 :=
  digestBytes_length _

theorem sha256_lt (msg : List Nat) : ∀ b ∈ sha256 msg, b < 256 :=
  digestBytes_lt _

theorem hmacSha256_length (key msg : List Nat) : (hmacSha256 key msg).length = 32 :=
  sha256_length _

theorem hmacSha256_lt (key msg : List Nat) : ∀ b ∈ hmacSha256 key msg, b < 256 :=
  sha256_lt _

theorem length_hexPairs (l : List Nat) :
    (l.flatMap (fun b => [hexChar (b / 16), hexChar (b % 16)])).length = 2 * l.length := by
  induction l with
  | nil => simp
  | cons x xs ih => simp [ih]; omega

theorem hexDigest_length (bytes : List Nat) :
    (hexDigest bytes).length = 2 * bytes.length := by
  simpa [hexDigest, String.length] using length_hexPairs bytes

theorem hexChar_lower : ∀ n < 16, isHexDigitLower (hexChar n) = true := by decide

theorem hexDigest_chars (bytes : List Nat) (hb : ∀ b ∈ bytes, b < 256) :
    ∀ c ∈ (hexDigest bytes).toList, isHexDigitLower c = true := by
  intro c hc
  have hc' : c ∈ bytes.flatMap (fun b => [hexChar (b / 16), hexChar (b % 16)]) := hc
  rw [List.mem_flatMap] at hc'
  obtain ⟨b, hbm, hcm⟩ := hc'
  have h256 : b < 256 := hb b hbm
  have h1 : b / 16 < 16 := by omega
  have h2 : b % 16 < 16 := by omega
  simp only [List.mem_cons, List.not_mem_nil, or_false] at hcm
  rcases hcm with rfl | rfl
  · exact hexChar_lower _ h1
  · exact hexChar_lower _ h2

theorem getSuccessIsTrue_iff (kvs : List (String × Json)) :
    getSuccessIsTrue kvs = true ↔ jget kvs "success" = some (Json.bool true) := by
  unfold getSuccessIsTrue
  cases h : jget kvs "success" with
  | none => simp
  | some v =>
    cases v with
    | bool b => cases b <;> simp
    | null => simp
    | num n => simp
    | str s => simp
    | arr items => simp
    | obj members => simp

theorem interpretParsed_obj (kvs : List (String × Json)) :
    interpretParsed (Json.obj kvs) =
      if getSuccessIsTrue kvs = true ∧ (jget kvs "receipt").isSome = true then
        .exited ["Submission receipt: " ++ pyStr ((jget kvs "receipt").getD .null)] [] 0
      else
        .exited [] ["Unexpected response: " ++ pyRepr (.obj kvs)] 1 := rfl

theorem missingVars_nil (env : List (String × String))
    (h1 : (lookupEnv env "B12_SIGNING_SECRET").isSome = true)
    (h2 : (lookupEnv env "GITHUB_RUN_URL").isSome = true) :
    missingVars env = [] := by
  obtain ⟨a, ha⟩ := Option.isSome_iff_exists.mp h1
  obtain ⟨b, hb⟩ := Option.isSome_iff_exists.mp h2
  simp [missingVars, required_env_vars, List.filter, ha, hb]

theorem run_validated (env : List (String × String)) (ts : String)
    (tr : TransportResult) (h : missingVars env = []) :
    run env ts tr =
      (some (request ((lookupEnv env "B12_SIGNING_SECRET").getD "")
        (buildPayload ts ((lookupEnv env "GITHUB_RUN_URL").getD ""))),
       handleTransport tr) := by
  unfold run
  rw [h]

/-! ### The claims -/

/-- C1: the byte sequence over which the HMAC-SHA256 digest is computed
(`canonical_json.encode("utf-8")`, line 69) is exactly the byte sequence
attached as the request body (`data=canonical_json.encode("utf-8")`,
line 80), for every payload and secret — no re-serialization happens in
between. -/
theorem signed_bytes_equal_sent_bytes (secret : String) (p : Payload) :
    signedBytes p = (request secret p).data := by
  simp only [signedBytes, request]

/-- C2: with the required environment present, a transport result of HTTP 200
with body `{"success": true, "receipt": "R123"}` makes the program print
`Submission receipt: R123` to stdout and exit with status 0, writing nothing
to the error stream. -/
theorem success_response_prints_receipt (env : List (String × String))
    (ts : String)
    (h1 : (lookupEnv env "B12_SIGNING_SECRET").isSome = true)
    (h2 : (lookupEnv env "GITHUB_RUN_URL").isSome = true) :
    (run env ts (.ok "\x7b\"success\": true, \"receipt\": \"R123\"\x7d")).2 =
      .exited ["Submission receipt: R123"] [] 0 := by
  rw [run_validated env ts _ (missingVars_nil env h1 h2)]
  rfl

theorem success_response_prints_receipt_witness :
    (run [("B12_SIGNING_SECRET", "k"), ("GITHUB_RUN_URL", "u")] "t"
      (.ok "\x7b\"success\": true, \"receipt\": \"R123\"\x7d")).2 =
      .exited ["Submission receipt: R123"] [] 0 :=
  success_response_prints_receipt _ "t" rfl rfl

/-- C3 counterexample: `{"success": 1, "receipt": "X"}` has a truthy
`success` (Python `bool(1)` is `True`) and a present `receipt`, yet the
program takes the failure path (`parsed.get("success") is True` compares
against the boolean object only), printing the structure to stderr and
exiting 1 instead of the success path the claim predicts. -/
theorem truthy_success_rejected :
    pyTruthy (Json.num 1) = true ∧
    (jget [("success", Json.num 1), ("receipt", Json.str "X")] "receipt").isSome = true ∧
    interpretParsed (Json.obj [("success", Json.num 1), ("receipt", Json.str "X")]) =
      .exited [] ["Unexpected response: \x7b'success': 1, 'receipt': 'X'\x7d"] 1 ∧
    isSuccessOutcome (interpretParsed
      (Json.obj [("success", Json.num 1), ("receipt", Json.str "X")])) = false := by
  refine ⟨rfl, rfl, ?_, ?_⟩ <;> rfl

/-- C3 (amended): for every parsed JSON object, the success path (receipt
printed, exit status 0) is taken if and only if the `success` field is the
boolean `true` — not merely truthy — and a `receipt` field is present. -/
theorem success_path_iff_literal_true (kvs : List (String × Json)) :
    isSuccessOutcome (interpretParsed (Json.obj kvs)) = true ↔
      (jget kvs "success" = some (Json.bool true) ∧
       (jget kvs "receipt").isSome = true) := by
  rw [interpretParsed_obj]
  split_ifs with h
  · simp only [isSuccessOutcome, decide_eq_true_eq, true_iff]
    exact ⟨(getSuccessIsTrue_iff kvs).mp h.1, h.2⟩
  · simp only [isSuccessOutcome, decide_eq_true_eq]
    constructor
    · intro h10; omega
    · intro hc
      exact absurd ⟨(getSuccessIsTrue_iff kvs).mpr hc.1, hc.2⟩ h

/-- C4 counterexample: the body `[]` parses as valid JSON that is not an
object; the claim predicts the parsed structure is printed to the error
stream, but the program instead raises an uncaught `AttributeError`
(`list` has no `.get`), so no `Unexpected response:` line is written. -/
theorem nondict_response_crashes :
    jsonLoads "[]" = some (Json.arr []) ∧
    interpretParsed (Json.arr []) =
      .crashed "AttributeError: 'list' object has no attribute 'get'" ∧
    ("Unexpected response: " ++ pyRepr (Json.arr [])) ∉
      stderrLines (interpretParsed (Json.arr [])) := by
  refine ⟨rfl, rfl, ?_⟩
  decide

/-- C4 (amended): for every response parsing to a JSON *object* that does not
satisfy the success condition, the program prints the full parsed structure
to the error stream and exits with status 1; a parsed value that is not an
object instead terminates with an uncaught `AttributeError` (also a
non-zero exit, but without printing the structure). -/
theorem unexpected_object_reported (kvs : List (String × Json))
    (h : ¬ (jget kvs "success" = some (Json.bool true) ∧
            (jget kvs "receipt").isSome = true)) :
    interpretParsed (Json.obj kvs) =
      .exited [] ["Unexpected response: " ++ pyRepr (Json.obj kvs)] 1 := by
  rw [interpretParsed_obj, if_neg]
  intro hc
  exact h ⟨(getSuccessIsTrue_iff kvs).mp hc.1, hc.2⟩

theorem unexpected_object_reported_witness :
    interpretParsed (Json.obj [("success", Json.bool false)]) =
      .exited [] ["Unexpected response: "
        ++ pyRepr (Json.obj [("success", Json.bool false)])] 1 :=
  unexpected_object_reported [("success", Json.bool false)]
    (by intro hc; simp [jget] at hc)

/-- C5: when either required environment variable is absent, the program
writes one stderr line listing every missing name (in particular both names
when both are missing), exits with status 1, and builds no request or
payload (the request component of the run is `none`). -/
theorem missing_env_reported (env : List (String × String)) (ts : String)
    (tr : TransportResult)
    (h : (lookupEnv env "B12_SIGNING_SECRET").isNone = true ∨
         (lookupEnv env "GITHUB_RUN_URL").isNone = true) :
    (run env ts tr).1 = none ∧
    (run env ts tr).2 = .exited []
      ["Missing required environment variables: "
        ++ String.intercalate ", " (missingVars env)] 1 ∧
    (∀ v ∈ required_env_vars, (lookupEnv env v).isNone = true →
      v ∈ missingVars env) ∧
    ((lookupEnv env "B12_SIGNING_SECRET").isNone = true →
     (lookupEnv env "GITHUB_RUN_URL").isNone = true →
      missingVars env = ["B12_SIGNING_SECRET", "GITHUB_RUN_URL"]) := by
  have hne : missingVars env ≠ [] := by
    intro hnil
    rcases h with h | h
    · have hm : "B12_SIGNING_SECRET" ∈ missingVars env :=
        List.mem_filter.mpr ⟨by simp [required_env_vars], h⟩
      rw [hnil] at hm
      exact List.not_mem_nil _ hm
    · have hm : "GITHUB_RUN_URL" ∈ missingVars env :=
        List.mem_filter.mpr ⟨by simp [required_env_vars], h⟩
      rw [hnil] at hm
      exact List.not_mem_nil _ hm
  refine ⟨?_, ?_, ?_, ?_⟩
  · unfold run
    cases hmv : missingVars env with
    | nil => exact absurd hmv hne
    | cons m ms => simp
  · unfold run
    cases hmv : missingVars env with
    | nil => exact absurd hmv hne
    | cons m ms => simp [hmv]
  · intro v hv hnone
    exact List.mem_filter.mpr ⟨hv, hnone⟩
  · intro ha hb
    simp only [missingVars, required_env_vars, List.filter]
    simp [ha, hb]

theorem missing_env_reported_witness :
    (run [] "t" (.ok "b")).1 = none ∧
    (run [] "t" (.ok "b")).2 = .exited []
      ["Missing required environment variables: "
        ++ String.intercalate ", " (missingVars [])] 1 ∧
    (∀ v ∈ required_env_vars, (lookupEnv ([] : List (String × String)) v).isNone = true →
      v ∈ missingVars []) ∧
    ((lookupEnv ([] : List (String × String)) "B12_SIGNING_SECRET").isNone = true →
     (lookupEnv ([] : List (String × String)) "GITHUB_RUN_URL").isNone = true →
      missingVars [] = ["B12_SIGNING_SECRET", "GITHUB_RUN_URL"]) :=
  missing_env_reported [] "t" (.ok "b") (Or.inl rfl)

/-- C6: canonical serialization is a deterministic function of the record's
field values: two payloads with equal fields serialize to byte-identical
canonical JSON, hence to equal UTF-8 byte sequences and, with the same
secret, equal signature headers. -/
theorem canonical_json_deterministic (p q : Payload)
    (h1 : p.timestamp = q.timestamp) (h2 : p.name = q.name)
    (h3 : p.email = q.email) (h4 : p.resume_link = q.resume_link)
    (h5 : p.repository_link = q.repository_link)
    (h6 : p.action_run_link = q.action_run_link) :
    canonical_json p = canonical_json q ∧
    utf8Bytes (canonical_json p) = utf8Bytes (canonical_json q) ∧
    ∀ secret : String, signature_header secret p = signature_header secret q := by
  cases p
  cases q
  simp only at h1 h2 h3 h4 h5 h6
  subst h1 h2 h3 h4 h5 h6
  exact ⟨rfl, rfl, fun _ => rfl⟩

theorem canonical_json_deterministic_witness :
    canonical_json (buildPayload "t" "u") = canonical_json (buildPayload "t" "u") ∧
    utf8Bytes (canonical_json (buildPayload "t" "u")) =
      utf8Bytes (canonical_json (buildPayload "t" "u")) ∧
    ∀ secret : String, signature_header secret (buildPayload "t" "u") =
      signature_header secret (buildPayload "t" "u") :=
  canonical_json_deterministic _ _ rfl rfl rfl rfl rfl rfl

/-- C7: for every secret and payload, the `X-Signature-256` value is the
literal `sha256=` followed by the hex HMAC-SHA256 digest of the canonical
bytes keyed by the UTF-8 secret, and that digest is exactly 64 lowercase
hexadecimal characters. -/
theorem signature_header_shape (secret : String) (p : Payload) :
    (request secret p).xSignature256 =
      "sha256=" ++ hmacSha256Hex (utf8Bytes secret) (utf8Bytes (canonical_json p)) ∧
    (digest secret p).length = 64 ∧
    ∀ c ∈ (digest secret p).toList, isHexDigitLower c = true := by
  refine ⟨rfl, ?_, ?_⟩
  · have := hexDigest_length (hmacSha256 (utf8Bytes secret) (signedBytes p))
    rw [hmacSha256_length] at this
    exact this
  · exact hexDigest_chars _ (hmacSha256_lt _ _)

/-- C8: every `HTTPError` (non-2xx response), for any status code and body,
makes the program print `HTTP error: <code> <body>` to the error stream and
exit with status 1; the run ends there, with no retry. -/
theorem http_error_reported (env : List (String × String)) (ts : String)
    (c : Nat) (b : String)
    (h1 : (lookupEnv env "B12_SIGNING_SECRET").isSome = true)
    (h2 : (lookupEnv env "GITHUB_RUN_URL").isSome = true) :
    (run env ts (.httpError c b)).2 =
      .exited [] ["HTTP error: " ++ toString c ++ " " ++ b] 1 := by
  rw [run_validated env ts _ (missingVars_nil env h1 h2)]
  rfl

theorem http_error_reported_witness :
    (run [("B12_SIGNING_SECRET", "k"), ("GITHUB_RUN_URL", "u")] "t"
      (.httpError 500 "server error")).2 =
      .exited [] ["HTTP error: " ++ toString 500 ++ " " ++ "server error"] 1 :=
  http_error_reported _ "t" 500 "server error" rfl rfl

/-- C9: environment validation tests only presence: with both variables set
to the empty string, validation passes, the request is built with the empty
secret (an empty signing key) and the payload's `action_run_link` is the
empty string. -/
theorem empty_env_values_pass (ts : String) (tr : TransportResult) :
    missingVars [("B12_SIGNING_SECRET", ""), ("GITHUB_RUN_URL", "")] = [] ∧
    (run [("B12_SIGNING_SECRET", ""), ("GITHUB_RUN_URL", "")] ts tr).1 =
      some (request "" (buildPayload ts "")) ∧
    (buildPayload ts "").action_run_link = "" ∧
    utf8Bytes "" = [] := by
  refine ⟨rfl, rfl, rfl, ?_⟩
  decide

/-- C10: for every environment, timestamp and transport outcome, a run either
takes the success path or terminates with process exit status exactly 1 —
every failure branch, including an uncaught `AttributeError`, yields 1. -/
theorem failures_exit_one (env : List (String × String)) (ts : String)
    (tr : TransportResult) :
    isSuccessOutcome (run env ts tr).2 = true ∨
    exitStatus (run env ts tr).2 = 1 := by
  have hparsed : ∀ v : Json,
      isSuccessOutcome (interpretParsed v) = true ∨
      exitStatus (interpretParsed v) = 1 := by
    intro v
    cases v with
    | obj kvs =>
      rw [interpretParsed_obj]
      split_ifs <;> simp [isSuccessOutcome, exitStatus]
    | null => right; rfl
    | bool b => right; rfl
    | num n => right; rfl
    | str s => right; rfl
    | arr items => right; rfl
  have hbody : ∀ body : String,
      isSuccessOutcome (interpretBody body) = true ∨
      exitStatus (interpretBody body) = 1 := by
    intro body
    unfold interpretBody
    cases jsonLoads body with
    | none => right; rfl
    | some parsed => exact hparsed parsed
  have htr : isSuccessOutcome (handleTransport tr) = true ∨
      exitStatus (handleTransport tr) = 1 := by
    cases tr with
    | ok body => exact hbody body
    | httpError c b => right; rfl
    | failed m => right; rfl
  unfold run
  cases hmv : missingVars env with
  | nil => exact htr
  | cons m ms => right; rfl

end SubmitApp





